import Mathlib

/-!
Verification development for the Lumen-BE backend (Node/Express + MySQL).

The registration-admission handlers, unregistration handlers, account
creation, and the two login flows are shallowly embedded as pure Lean
functions over explicit database states. Each handler definition mirrors
one route callback from the source; the SQL statements are modelled as
list operations over the in-memory table states:

  SELECT ... WHERE c = v        -->  List.find? / List.filter
  COUNT(...) with LEFT JOIN     -->  length of the filtered row list
  INSERT                        -->  append to the row list
  DELETE ... WHERE ...          -->  List.filter with the negated condition
  auto-increment insertId       -->  an explicit nextUserID counter

External primitives (bcrypt hashing and comparison) are passed in as
function parameters; JWT tokens are modelled by their payloads.
-/

namespace Lumen

/-- Row of the Event table, with the columns used by the handlers
(INSERT in POST /events and the capacity queries). -/
structure Event where
  eventID : Nat
  eventName : String
  eventDescription : String
  disabled_friendly : Bool
  datetime : String
  location : String
  additional_information : String
  max_participants : Nat
  max_volunteers : Nat
  created_by : Nat
deriving DecidableEq

/-- Row of the ParticipantEvent join table (the signed_at column is a
database-side default, never set by the handlers, so it is omitted). -/
structure ParticipantEvent where
  participantID : Nat
  eventID : Nat
deriving DecidableEq

/-- Row of the VolunteerEvent join table. -/
structure VolunteerEvent where
  volunteerID : Nat
  eventID : Nat
deriving DecidableEq

/-- The tables consulted by the event-registration handlers. -/
structure RegState where
  events : List Event
  participantEvents : List ParticipantEvent
  volunteerEvents : List VolunteerEvent
deriving DecidableEq

/-- Lookup of an event by primary key: SELECT ... FROM Event e WHERE
e.eventID = ?. The primary key makes the row unique; the model takes the
first match. -/
def findEvent (events : List Event) (eventID : Nat) : Option Event :=
  events.find? (fun e => e.eventID == eventID)

/-- COUNT(pe.participantID) over the LEFT JOIN of the capacity query:
the number of ParticipantEvent rows for the given event. -/
def participantCount (rows : List ParticipantEvent) (eventID : Nat) : Nat :=
  (rows.filter (fun r => r.eventID == eventID)).length

/-- Number of ParticipantEvent rows for a (participant, event) pair:
SELECT * FROM ParticipantEvent WHERE participantID = ? AND eventID = ?. -/
def participantPairCount (rows : List ParticipantEvent) (participantID eventID : Nat) : Nat :=
  (rows.filter (fun r => r.participantID == participantID && r.eventID == eventID)).length

/-- COUNT(ve.volunteerID) for the volunteer capacity query. -/
def volunteerCount (rows : List VolunteerEvent) (eventID : Nat) : Nat :=
  (rows.filter (fun r => r.eventID == eventID)).length

/-- Number of VolunteerEvent rows for a (volunteer, event) pair. -/
def volunteerPairCount (rows : List VolunteerEvent) (volunteerID eventID : Nat) : Nat :=
  (rows.filter (fun r => r.volunteerID == volunteerID && r.eventID == eventID)).length

/-- Outcome of a registration handler. Constructor to HTTP response:
created is 201 success true, notFound is 404 Event not found,
eventFull is 400 Event is full, alreadyRegistered is 400 Already
registered. -/
inductive SignResult where
  | created
  | notFound
  | eventFull
  | alreadyRegistered
deriving DecidableEq

/-- Handler of POST /participant-events: fetch the event together with
the current registration count; 404 when the event row is missing; 400
Event is full when current_count >= max_participants; 400 Already
registered when a join row for the pair exists; otherwise insert the
join row and answer 201. -/
def postParticipantEvents (st : RegState) (participantID eventID : Nat) :
    SignResult × RegState :=
  match findEvent st.events eventID with
  | none => (SignResult.notFound, st)
  | some e =>
    if e.max_participants ≤ participantCount st.participantEvents eventID then
      (SignResult.eventFull, st)
    else if 0 < participantPairCount st.participantEvents participantID eventID then
      (SignResult.alreadyRegistered, st)
    else
      (SignResult.created,
        { st with participantEvents :=
            st.participantEvents ++ [⟨participantID, eventID⟩] })

/-- Handler of DELETE /participant-events/:participantID/:eventID: one
unconditional DELETE of the rows matching the pair, then success true
regardless of whether any row existed. -/
def deleteParticipantEvents (st : RegState) (participantID eventID : Nat) :
    Bool × RegState :=
  (true,
    { st with participantEvents :=
        (st.participantEvents.filter
          (fun r => !(r.participantID == participantID && r.eventID == eventID))) })

/-- Handler of POST /volunteer-events, same shape as the participant
version with max_volunteers and the VolunteerEvent table. -/
def postVolunteerEvents (st : RegState) (volunteerID eventID : Nat) :
    SignResult × RegState :=
  match findEvent st.events eventID with
  | none => (SignResult.notFound, st)
  | some e =>
    if e.max_volunteers ≤ volunteerCount st.volunteerEvents eventID then
      (SignResult.eventFull, st)
    else if 0 < volunteerPairCount st.volunteerEvents volunteerID eventID then
      (SignResult.alreadyRegistered, st)
    else
      (SignResult.created,
        { st with volunteerEvents :=
            st.volunteerEvents ++ [⟨volunteerID, eventID⟩] })

/-- Handler of DELETE /volunteer-events/:volunteerID/:eventID. -/
def deleteVolunteerEvents (st : RegState) (volunteerID eventID : Nat) :
    Bool × RegState :=
  (true,
    { st with volunteerEvents :=
        (st.volunteerEvents.filter
          (fun r => !(r.volunteerID == volunteerID && r.eventID == eventID))) })

/-- One admission operation of the four registration endpoints. -/
inductive AdmissionOp where
  | regParticipant (participantID eventID : Nat)
  | unregParticipant (participantID eventID : Nat)
  | regVolunteer (volunteerID eventID : Nat)
  | unregVolunteer (volunteerID eventID : Nat)
deriving DecidableEq

/-- State transition of a single admission operation. -/
def applyOp (st : RegState) (op : AdmissionOp) : RegState :=
  match op with
  | AdmissionOp.regParticipant p e => (postParticipantEvents st p e).2
  | AdmissionOp.unregParticipant p e => (deleteParticipantEvents st p e).2
  | AdmissionOp.regVolunteer v e => (postVolunteerEvents st v e).2
  | AdmissionOp.unregVolunteer v e => (deleteVolunteerEvents st v e).2

/-- Sequential run of admission operations. -/
def runOps (st : RegState) (ops : List AdmissionOp) : RegState :=
  ops.foldl applyOp st

/-- Sample event used to instantiate theorems with hypotheses. -/
def sampleEvent : Event :=
  { eventID := 1, eventName := "Tai Chi", eventDescription := "Morning session",
    disabled_friendly := true, datetime := "2025-01-01 09:00", location := "Hall A",
    additional_information := "", max_participants := 2, max_volunteers := 1,
    created_by := 9 }

/-- Sample registration state holding one event and no join rows. -/
def sampleState : RegState :=
  { events := [sampleEvent], participantEvents := [], volunteerEvents := [] }

/-- Appending one row changes a filtered count by one exactly when the row
matches the filter. -/
theorem length_filter_append_singleton {α : Type} (l : List α) (a : α) (p : α → Bool) :
    ((l ++ [a]).filter p).length =
      (l.filter p).length + (if p a then 1 else 0) := by
  by_cases h : p a <;> simp [List.filter_append, h]

/-- Deleting rows (an extra filter) can only shrink a filtered count. -/
theorem length_filter_filter_le {α : Type} (l : List α) (p q : α → Bool) :
    ((l.filter q).filter p).length ≤ (l.filter p).length :=
  List.Sublist.length_le (List.Sublist.filter p (List.filter_sublist l))

/-- Participant admission never touches the Event table. -/
theorem postParticipantEvents_events (st : RegState) (p e : Nat) :
    (postParticipantEvents st p e).2.events = st.events := by
  unfold postParticipantEvents
  cases hfe : findEvent st.events e
  · rfl
  · dsimp only
    split_ifs <;> rfl

/-- Volunteer admission never touches the Event table. -/
theorem postVolunteerEvents_events (st : RegState) (v e : Nat) :
    (postVolunteerEvents st v e).2.events = st.events := by
  unfold postVolunteerEvents
  cases hfe : findEvent st.events e
  · rfl
  · dsimp only
    split_ifs <;> rfl

/-- Volunteer admission never touches the ParticipantEvent table. -/
theorem postVolunteerEvents_participantEvents (st : RegState) (v e : Nat) :
    (postVolunteerEvents st v e).2.participantEvents = st.participantEvents := by
  unfold postVolunteerEvents
  cases hfe : findEvent st.events e
  · rfl
  · dsimp only
    split_ifs <;> rfl

/-- Participant admission never touches the VolunteerEvent table. -/
theorem postParticipantEvents_volunteerEvents (st : RegState) (p e : Nat) :
    (postParticipantEvents st p e).2.volunteerEvents = st.volunteerEvents := by
  unfold postParticipantEvents
  cases hfe : findEvent st.events e
  · rfl
  · dsimp only
    split_ifs <;> rfl

/-- Registration and unregistration never touch the Event table. -/
theorem applyOp_events (st : RegState) (op : AdmissionOp) :
    (applyOp st op).events = st.events := by
  cases op with
  | regParticipant p e => exact postParticipantEvents_events st p e
  | unregParticipant p e => rfl
  | regVolunteer v e => exact postVolunteerEvents_events st v e
  | unregVolunteer v e => rfl

/-- A run of admission operations preserves any invariant preserved by
every single operation. -/
theorem runOps_preserve (Inv : RegState → Prop)
    (hstep : ∀ st op, Inv st → Inv (applyOp st op)) :
    ∀ ops st, Inv st → Inv (runOps st ops) := by
  intro ops
  induction ops with
  | nil => intro st h; exact h
  | cons op ops ih => intro st h; exact ih (applyOp st op) (hstep st op h)

/-- Participant admission preserves the participant capacity bound: when
the event row with limit N is present, the handler never pushes the
ParticipantEvent count for that event above N. -/
theorem postParticipantEvents_participantCount_le (st : RegState)
    (p e eid : Nat) (ev : Event)
    (hev : findEvent st.events eid = some ev)
    (h : participantCount st.participantEvents eid ≤ ev.max_participants) :
    participantCount (postParticipantEvents st p e).2.participantEvents eid
      ≤ ev.max_participants := by
  unfold postParticipantEvents
  cases hfe : findEvent st.events e with
  | none => exact h
  | some ev2 =>
    dsimp only
    split_ifs with hcap hdup
    · exact h
    · exact h
    · by_cases he : e = eid
      · subst he
        rw [hfe] at hev
        injection hev with hev2
        subst hev2
        have hcount :
            participantCount (st.participantEvents ++ [⟨p, e⟩]) e
              = participantCount st.participantEvents e + 1 := by
          simp [participantCount, length_filter_append_singleton]
        simp only [hcount]
        exact Nat.lt_of_not_le hcap
      · have hcount :
            participantCount (st.participantEvents ++ [⟨p, e⟩]) eid
              = participantCount st.participantEvents eid := by
          simp [participantCount, length_filter_append_singleton, he]
        simp only [hcount]
        exact h

/-- Volunteer admission preserves the volunteer capacity bound. -/
theorem postVolunteerEvents_volunteerCount_le (st : RegState)
    (v e eid : Nat) (ev : Event)
    (hev : findEvent st.events eid = some ev)
    (h : volunteerCount st.volunteerEvents eid ≤ ev.max_volunteers) :
    volunteerCount (postVolunteerEvents st v e).2.volunteerEvents eid
      ≤ ev.max_volunteers := by
  unfold postVolunteerEvents
  cases hfe : findEvent st.events e with
  | none => exact h
  | some ev2 =>
    dsimp only
    split_ifs with hcap hdup
    · exact h
    · exact h
    · by_cases he : e = eid
      · subst he
        rw [hfe] at hev
        injection hev with hev2
        subst hev2
        have hcount :
            volunteerCount (st.volunteerEvents ++ [⟨v, e⟩]) e
              = volunteerCount st.volunteerEvents e + 1 := by
          simp [volunteerCount, length_filter_append_singleton]
        simp only [hcount]
        exact Nat.lt_of_not_le hcap
      · have hcount :
            volunteerCount (st.volunteerEvents ++ [⟨v, e⟩]) eid
              = volunteerCount st.volunteerEvents eid := by
          simp [volunteerCount, length_filter_append_singleton, he]
        simp only [hcount]
        exact h

/-- Single-step preservation of the participant capacity bound by any
admission operation. -/
theorem applyOp_participantCount_le (st : RegState) (op : AdmissionOp)
    (eid : Nat) (ev : Event)
    (hev : findEvent st.events eid = some ev)
    (h : participantCount st.participantEvents eid ≤ ev.max_participants) :
    participantCount (applyOp st op).participantEvents eid ≤ ev.max_participants := by
  cases op with
  | regParticipant p e =>
      exact postParticipantEvents_participantCount_le st p e eid ev hev h
  | unregParticipant p e =>
      exact le_trans (length_filter_filter_le st.participantEvents _ _) h
  | regVolunteer v e =>
      show participantCount (postVolunteerEvents st v e).2.participantEvents eid
        ≤ ev.max_participants
      rw [postVolunteerEvents_participantEvents]
      exact h
  | unregVolunteer v e => exact h

/-- Single-step preservation of the volunteer capacity bound by any
admission operation. -/
theorem applyOp_volunteerCount_le (st : RegState) (op : AdmissionOp)
    (eid : Nat) (ev : Event)
    (hev : findEvent st.events eid = some ev)
    (h : volunteerCount st.volunteerEvents eid ≤ ev.max_volunteers) :
    volunteerCount (applyOp st op).volunteerEvents eid ≤ ev.max_volunteers := by
  cases op with
  | regVolunteer v e =>
      exact postVolunteerEvents_volunteerCount_le st v e eid ev hev h
  | unregVolunteer v e =>
      exact le_trans (length_filter_filter_le st.volunteerEvents _ _) h
  | regParticipant p e =>
      show volunteerCount (postParticipantEvents st p e).2.volunteerEvents eid
        ≤ ev.max_volunteers
      rw [postParticipantEvents_volunteerEvents]
      exact h
  | unregParticipant p e => exact h

/-- C1: the admission handler for either registrant kind decides in order:
NotFound when the event row is missing; else CapacityExceeded (Event is
full) when the current join-row count for the event is at least the
capacity limit for that kind, leaving the state unchanged; else
AlreadyRegistered when a join row for the (registrant, event) pair exists,
leaving the state unchanged; else it appends exactly one join row and
succeeds. -/
theorem c1_admission_decision_order (st : RegState) (rid eid : Nat) :
    ((findEvent st.events eid = none →
        postParticipantEvents st rid eid = (SignResult.notFound, st)) ∧
     (∀ ev, findEvent st.events eid = some ev →
        (ev.max_participants ≤ participantCount st.participantEvents eid →
           postParticipantEvents st rid eid = (SignResult.eventFull, st)) ∧
        (participantCount st.participantEvents eid < ev.max_participants →
         0 < participantPairCount st.participantEvents rid eid →
           postParticipantEvents st rid eid = (SignResult.alreadyRegistered, st)) ∧
        (participantCount st.participantEvents eid < ev.max_participants →
         participantPairCount st.participantEvents rid eid = 0 →
           postParticipantEvents st rid eid =
             (SignResult.created,
               { st with participantEvents :=
                   st.participantEvents ++ [⟨rid, eid⟩] })))) ∧
    ((findEvent st.events eid = none →
        postVolunteerEvents st rid eid = (SignResult.notFound, st)) ∧
     (∀ ev, findEvent st.events eid = some ev →
        (ev.max_volunteers ≤ volunteerCount st.volunteerEvents eid →
           postVolunteerEvents st rid eid = (SignResult.eventFull, st)) ∧
        (volunteerCount st.volunteerEvents eid < ev.max_volunteers →
         0 < volunteerPairCount st.volunteerEvents rid eid →
           postVolunteerEvents st rid eid = (SignResult.alreadyRegistered, st)) ∧
        (volunteerCount st.volunteerEvents eid < ev.max_volunteers →
         volunteerPairCount st.volunteerEvents rid eid = 0 →
           postVolunteerEvents st rid eid =
             (SignResult.created,
               { st with volunteerEvents :=
                   st.volunteerEvents ++ [⟨rid, eid⟩] })))) := by
  constructor
  · constructor
    · intro h
      simp [postParticipantEvents, h]
    · intro ev hev
      refine ⟨?_, ?_, ?_⟩
      · intro h1
        simp [postParticipantEvents, hev, h1]
      · intro h1 h2
        simp [postParticipantEvents, hev, Nat.not_le.mpr h1, h2]
      · intro h1 h2
        simp [postParticipantEvents, hev, Nat.not_le.mpr h1, h2]
  · constructor
    · intro h
      simp [postVolunteerEvents, h]
    · intro ev hev
      refine ⟨?_, ?_, ?_⟩
      · intro h1
        simp [postVolunteerEvents, hev, h1]
      · intro h1 h2
        simp [postVolunteerEvents, hev, Nat.not_le.mpr h1, h2]
      · intro h1 h2
        simp [postVolunteerEvents, hev, Nat.not_le.mpr h1, h2]

/-- C1 witness: on a concrete state with one event of capacity 2 and no
join rows, the decision procedure admits participant 7 and inserts the
single join row. -/
theorem c1_admission_decision_order_witness :
    postParticipantEvents sampleState 7 1 =
      (SignResult.created,
        { sampleState with participantEvents :=
            sampleState.participantEvents ++ [⟨7, 1⟩] }) :=
  (((c1_admission_decision_order sampleState 7 1).1.2 sampleEvent (by decide)).2.2
    (by decide) (by decide))

/-- C2: with the event row of participant limit N present, an attempt at
or above capacity fails with CapacityExceeded (Event is full) and leaves
the state unchanged; a successful registration raises the count for the
event by exactly one and stays within N; and the count never exceeds N
along any sequential run of admission operations. Symmetrically for
volunteers and max_volunteers. -/
theorem c2_capacity_never_exceeded (st : RegState) (eid : Nat) (ev : Event)
    (hev : findEvent st.events eid = some ev) :
    (∀ rid, ev.max_participants ≤ participantCount st.participantEvents eid →
        postParticipantEvents st rid eid = (SignResult.eventFull, st)) ∧
    (∀ rid st2, postParticipantEvents st rid eid = (SignResult.created, st2) →
        participantCount st2.participantEvents eid
            = participantCount st.participantEvents eid + 1 ∧
        participantCount st2.participantEvents eid ≤ ev.max_participants) ∧
    (∀ ops, participantCount st.participantEvents eid ≤ ev.max_participants →
        participantCount (runOps st ops).participantEvents eid
          ≤ ev.max_participants) ∧
    (∀ rid, ev.max_volunteers ≤ volunteerCount st.volunteerEvents eid →
        postVolunteerEvents st rid eid = (SignResult.eventFull, st)) ∧
    (∀ rid st2, postVolunteerEvents st rid eid = (SignResult.created, st2) →
        volunteerCount st2.volunteerEvents eid
            = volunteerCount st.volunteerEvents eid + 1 ∧
        volunteerCount st2.volunteerEvents eid ≤ ev.max_volunteers) ∧
    (∀ ops, volunteerCount st.volunteerEvents eid ≤ ev.max_volunteers →
        volunteerCount (runOps st ops).volunteerEvents eid
          ≤ ev.max_volunteers) := by
  refine ⟨?_, ?_, ?_, ?_, ?_, ?_⟩
  · intro rid h
    simp [postParticipantEvents, hev, h]
  · intro rid st2 hpost
    unfold postParticipantEvents at hpost
    rw [hev] at hpost
    dsimp only at hpost
    split_ifs at hpost with hcap hdup
    · simp at hpost
    · simp at hpost
    · rw [Prod.mk.injEq] at hpost
      rw [← hpost.2]
      have hcount :
          participantCount (st.participantEvents ++ [⟨rid, eid⟩]) eid
            = participantCount st.participantEvents eid + 1 := by
        simp [participantCount, length_filter_append_singleton]
      refine ⟨hcount, ?_⟩
      rw [hcount]
      exact Nat.lt_of_not_le hcap
  · intro ops h
    have hrun := runOps_preserve
      (fun s => findEvent s.events eid = some ev ∧
        participantCount s.participantEvents eid ≤ ev.max_participants)
      (fun s op hInv =>
        ⟨by rw [applyOp_events]; exact hInv.1,
         applyOp_participantCount_le s op eid ev hInv.1 hInv.2⟩)
      ops st ⟨hev, h⟩
    exact hrun.2
  · intro rid h
    simp [postVolunteerEvents, hev, h]
  · intro rid st2 hpost
    unfold postVolunteerEvents at hpost
    rw [hev] at hpost
    dsimp only at hpost
    split_ifs at hpost with hcap hdup
    · simp at hpost
    · simp at hpost
    · rw [Prod.mk.injEq] at hpost
      rw [← hpost.2]
      have hcount :
          volunteerCount (st.volunteerEvents ++ [⟨rid, eid⟩]) eid
            = volunteerCount st.volunteerEvents eid + 1 := by
        simp [volunteerCount, length_filter_append_singleton]
      refine ⟨hcount, ?_⟩
      rw [hcount]
      exact Nat.lt_of_not_le hcap
  · intro ops h
    have hrun := runOps_preserve
      (fun s => findEvent s.events eid = some ev ∧
        volunteerCount s.volunteerEvents eid ≤ ev.max_volunteers)
      (fun s op hInv =>
        ⟨by rw [applyOp_events]; exact hInv.1,
         applyOp_volunteerCount_le s op eid ev hInv.1 hInv.2⟩)
      ops st ⟨hev, h⟩
    exact hrun.2

/-- Registration state at participant capacity for the sample event of
limit 2, used to exercise the capacity theorems. -/
def fullState : RegState :=
  { events := [sampleEvent],
    participantEvents := [⟨7, 1⟩, ⟨8, 1⟩],
    volunteerEvents := [⟨5, 1⟩] }

/-- C2 witness: with the sample event of limit 2 already holding two
participant join rows, a further attempt fails with Event is full and the
state is unchanged; a run of one volunteer registration keeps the
volunteer count within its limit. -/
theorem c2_capacity_never_exceeded_witness :
    postParticipantEvents fullState 9 1 = (SignResult.eventFull, fullState) ∧
    volunteerCount (runOps fullState [AdmissionOp.regVolunteer 6 1]).volunteerEvents 1
      ≤ sampleEvent.max_volunteers :=
  ⟨(c2_capacity_never_exceeded fullState 1 sampleEvent (by decide)).1 9 (by decide),
   (c2_capacity_never_exceeded fullState 1 sampleEvent (by decide)).2.2.2.2.2
     [AdmissionOp.regVolunteer 6 1] (by decide)⟩

/-- Keeping only the rows that fail a condition leaves no row that
satisfies it. -/
theorem length_filter_of_filter_not {α : Type} (l : List α) (p : α → Bool) :
    ((l.filter (fun a => !(p a))).filter p).length = 0 := by
  rw [List.length_eq_zero]
  rw [List.filter_eq_nil_iff]
  intro a ha
  have := (List.mem_filter.mp ha).2
  simp at this
  simp [this]

/-- Participant admission preserves the at-most-one-row-per-pair bound. -/
theorem postParticipantEvents_pairCount_le (st : RegState) (p e rid eid : Nat)
    (h : participantPairCount st.participantEvents rid eid ≤ 1) :
    participantPairCount (postParticipantEvents st p e).2.participantEvents rid eid
      ≤ 1 := by
  unfold postParticipantEvents
  cases hfe : findEvent st.events e with
  | none => exact h
  | some ev2 =>
    dsimp only
    split_ifs with hcap hdup
    · exact h
    · exact h
    · by_cases hp : p = rid
      · by_cases he2 : e = eid
        · subst hp
          subst he2
          have hz : participantPairCount st.participantEvents p e = 0 :=
            Nat.eq_zero_of_not_pos hdup
          have hcount :
              participantPairCount (st.participantEvents ++ [⟨p, e⟩]) p e
                = participantPairCount st.participantEvents p e + 1 := by
            simp [participantPairCount, length_filter_append_singleton]
          rw [hcount, hz]
        · have hcount :
              participantPairCount (st.participantEvents ++ [⟨p, e⟩]) rid eid
                = participantPairCount st.participantEvents rid eid := by
            simp [participantPairCount, length_filter_append_singleton, he2]
          rw [hcount]
          exact h
      · have hcount :
            participantPairCount (st.participantEvents ++ [⟨p, e⟩]) rid eid
              = participantPairCount st.participantEvents rid eid := by
          simp [participantPairCount, length_filter_append_singleton, hp]
        rw [hcount]
        exact h

/-- Any admission operation preserves the at-most-one-row-per-pair bound
on the ParticipantEvent table. -/
theorem applyOp_participantPairCount_le (st : RegState) (op : AdmissionOp)
    (rid eid : Nat)
    (h : participantPairCount st.participantEvents rid eid ≤ 1) :
    participantPairCount (applyOp st op).participantEvents rid eid ≤ 1 := by
  cases op with
  | regParticipant p e => exact postParticipantEvents_pairCount_le st p e rid eid h
  | unregParticipant p e =>
      exact le_trans (length_filter_filter_le st.participantEvents _ _) h
  | regVolunteer v e =>
      show participantPairCount (postVolunteerEvents st v e).2.participantEvents rid eid ≤ 1
      rw [postVolunteerEvents_participantEvents]
      exact h
  | unregVolunteer v e => exact h

/-- Event with a participant capacity of one, on which the claimed
AlreadyRegistered answer for a repeated registration is refuted. -/
def tightEvent : Event :=
  { eventID := 1, eventName := "Clinic", eventDescription := "",
    disabled_friendly := false, datetime := "2025-02-02 10:00", location := "Room 1",
    additional_information := "", max_participants := 1, max_volunteers := 0,
    created_by := 9 }

/-- Registration state holding only tightEvent and no join rows. -/
def tightState : RegState :=
  { events := [tightEvent], participantEvents := [], volunteerEvents := [] }

/-- C3 counterexample: on an event with max_participants = 1, registering
participant 7 succeeds, and the second registration attempt for the same
pair answers Event is full (the capacity check runs before the duplicate
check), not Already registered. -/
theorem c3_counterexample :
    (postParticipantEvents tightState 7 1).1 = SignResult.created ∧
    (postParticipantEvents (postParticipantEvents tightState 7 1).2 7 1).1
      = SignResult.eventFull ∧
    (postParticipantEvents (postParticipantEvents tightState 7 1).2 7 1).1
      ≠ SignResult.alreadyRegistered := by
  decide

/-- C3 amended: after a successful registration of (rid, eid) exactly one
join row for the pair exists; the second attempt fails, leaving the state
unchanged, with AlreadyRegistered whenever the event is below its
participant capacity at that moment and with Event is full otherwise; and
no sequential run of admission operations ever produces two join rows for
one pair. -/
theorem c3_single_pair_row (st : RegState) (rid eid : Nat) :
    (∀ st2, postParticipantEvents st rid eid = (SignResult.created, st2) →
        participantPairCount st2.participantEvents rid eid = 1 ∧
        (postParticipantEvents st2 rid eid).2 = st2 ∧
        ((postParticipantEvents st2 rid eid).1 = SignResult.eventFull ∨
         (postParticipantEvents st2 rid eid).1 = SignResult.alreadyRegistered) ∧
        (∀ ev, findEvent st.events eid = some ev →
            participantCount st2.participantEvents eid < ev.max_participants →
            (postParticipantEvents st2 rid eid).1 = SignResult.alreadyRegistered)) ∧
    (∀ ops, participantPairCount st.participantEvents rid eid ≤ 1 →
        participantPairCount (runOps st ops).participantEvents rid eid ≤ 1) := by
  constructor
  · intro st2 hpost
    unfold postParticipantEvents at hpost
    cases hev : findEvent st.events eid with
    | none => rw [hev] at hpost; simp at hpost
    | some ev0 =>
      rw [hev] at hpost
      dsimp only at hpost
      split_ifs at hpost with hcap hdup
      · simp at hpost
      · simp at hpost
      · rw [Prod.mk.injEq] at hpost
        have hst2 : st2 =
            { st with participantEvents := st.participantEvents ++ [⟨rid, eid⟩] } :=
          hpost.2.symm
        subst hst2
        have hz : participantPairCount st.participantEvents rid eid = 0 :=
          Nat.eq_zero_of_not_pos hdup
        have hpair :
            participantPairCount (st.participantEvents ++ [⟨rid, eid⟩]) rid eid = 1 := by
          unfold participantPairCount at hz ⊢
          rw [length_filter_append_singleton, hz]
          simp
        refine ⟨hpair, ?_⟩
        have hsecond :
            postParticipantEvents
                { st with participantEvents := st.participantEvents ++ [⟨rid, eid⟩] }
                rid eid =
              if ev0.max_participants ≤
                  participantCount (st.participantEvents ++ [⟨rid, eid⟩]) eid then
                (SignResult.eventFull,
                  { st with participantEvents := st.participantEvents ++ [⟨rid, eid⟩] })
              else
                (SignResult.alreadyRegistered,
                  { st with participantEvents := st.participantEvents ++ [⟨rid, eid⟩] }) := by
          unfold postParticipantEvents
          have hev2 : findEvent st.events eid = some ev0 := hev
          dsimp only
          rw [hev2]
          dsimp only
          split_ifs with hcap2 hdup2
          · rfl
          · rfl
          · exact absurd (by rw [hpair]; exact Nat.one_pos) hdup2
        by_cases hcap3 : ev0.max_participants ≤
            participantCount (st.participantEvents ++ [⟨rid, eid⟩]) eid
        · rw [hsecond, if_pos hcap3]
          refine ⟨rfl, Or.inl rfl, ?_⟩
          intro ev hev3 hlt
          have hee : ev0 = ev := Option.some_injective _ hev3
          subst hee
          exact absurd hcap3 (Nat.not_le.mpr hlt)
        · rw [hsecond, if_neg hcap3]
          exact ⟨rfl, Or.inr rfl, fun ev hev3 hlt => rfl⟩
  · intro ops h
    exact runOps_preserve
      (fun s => participantPairCount s.participantEvents rid eid ≤ 1)
      (fun s op hInv => applyOp_participantPairCount_le s op rid eid hInv)
      ops st h

/-- C3 witness: on the sample state with capacity 2, registering
participant 7 leaves exactly one join row for the pair and the second
attempt answers Already registered; pair counts stay at most one along a
sample run. -/
theorem c3_single_pair_row_witness :
    participantPairCount
        (postParticipantEvents sampleState 7 1).2.participantEvents 7 1 = 1 ∧
    (postParticipantEvents (postParticipantEvents sampleState 7 1).2 7 1).1
      = SignResult.alreadyRegistered ∧
    participantPairCount
        (runOps sampleState
          [AdmissionOp.regParticipant 7 1, AdmissionOp.regParticipant 7 1,
           AdmissionOp.unregParticipant 7 1,
           AdmissionOp.regParticipant 7 1]).participantEvents 7 1 ≤ 1 := by
  have hstep := (c3_single_pair_row sampleState 7 1).1
    (postParticipantEvents sampleState 7 1).2 (by decide)
  exact ⟨hstep.1,
    hstep.2.2.2 sampleEvent (by decide) (by decide),
    (c3_single_pair_row sampleState 7 1).2
      [AdmissionOp.regParticipant 7 1, AdmissionOp.regParticipant 7 1,
       AdmissionOp.unregParticipant 7 1,
       AdmissionOp.regParticipant 7 1] (by decide)⟩

/-- C4: unregistration answers success whether or not a join row exists,
afterwards zero join rows exist for the pair, and deleting a pair that
was never registered leaves the state unchanged; the same for volunteer
unregistration. -/
theorem c4_unregistration_idempotent (st : RegState) (rid eid : Nat) :
    ((deleteParticipantEvents st rid eid).1 = true ∧
     participantPairCount
         (deleteParticipantEvents st rid eid).2.participantEvents rid eid = 0 ∧
     (participantPairCount st.participantEvents rid eid = 0 →
        (deleteParticipantEvents st rid eid).2 = st)) ∧
    ((deleteVolunteerEvents st rid eid).1 = true ∧
     volunteerPairCount
         (deleteVolunteerEvents st rid eid).2.volunteerEvents rid eid = 0 ∧
     (volunteerPairCount st.volunteerEvents rid eid = 0 →
        (deleteVolunteerEvents st rid eid).2 = st)) := by
  refine ⟨⟨rfl, ?_, ?_⟩, ⟨rfl, ?_, ?_⟩⟩
  · exact length_filter_of_filter_not st.participantEvents _
  · intro hz
    have hall : ∀ r ∈ st.participantEvents,
        (r.participantID == rid && r.eventID == eid) = false := by
      intro r hr
      have hnil : st.participantEvents.filter
          (fun r => r.participantID == rid && r.eventID == eid) = [] :=
        List.length_eq_zero.mp hz
      have := List.filter_eq_nil_iff.mp hnil r hr
      simpa using this
    have hfil : st.participantEvents.filter
        (fun r => !(r.participantID == rid && r.eventID == eid))
          = st.participantEvents := by
      apply List.filter_eq_self.mpr
      intro r hr
      simp [hall r hr]
    show (true, _).2 = st
    simp only [deleteParticipantEvents, hfil]
  · exact length_filter_of_filter_not st.volunteerEvents _
  · intro hz
    have hall : ∀ r ∈ st.volunteerEvents,
        (r.volunteerID == rid && r.eventID == eid) = false := by
      intro r hr
      have hnil : st.volunteerEvents.filter
          (fun r => r.volunteerID == rid && r.eventID == eid) = [] :=
        List.length_eq_zero.mp hz
      have := List.filter_eq_nil_iff.mp hnil r hr
      simpa using this
    have hfil : st.volunteerEvents.filter
        (fun r => !(r.volunteerID == rid && r.eventID == eid))
          = st.volunteerEvents := by
      apply List.filter_eq_self.mpr
      intro r hr
      simp [hall r hr]
    show (true, _).2 = st
    simp only [deleteVolunteerEvents, hfil]

/-- C4 witness: deleting the never-registered pair (3, 1) from the full
sample state answers success and leaves the state unchanged, and zero
rows for the pair remain. -/
theorem c4_unregistration_idempotent_witness :
    (deleteParticipantEvents fullState 3 1).1 = true ∧
    participantPairCount
        (deleteParticipantEvents fullState 3 1).2.participantEvents 3 1 = 0 ∧
    (deleteParticipantEvents fullState 3 1).2 = fullState :=
  ⟨(c4_unregistration_idempotent fullState 3 1).1.1,
   (c4_unregistration_idempotent fullState 3 1).1.2.1,
   (c4_unregistration_idempotent fullState 3 1).1.2.2 (by decide)⟩

/-- Handler of POST /participant-events in src/routes/api.js: one
unconditional INSERT into ParticipantEvent, then 201 success true. -/
def apiPostParticipantEvents (st : RegState) (participantID eventID : Nat) :
    Bool × RegState :=
  (true,
    { st with participantEvents :=
        st.participantEvents ++ [⟨participantID, eventID⟩] })

/-- Handler of POST /volunteer-events in src/routes/api.js: one
unconditional INSERT into VolunteerEvent, then 201 success true. -/
def apiPostVolunteerEvents (st : RegState) (volunteerID eventID : Nat) :
    Bool × RegState :=
  (true,
    { st with volunteerEvents :=
        st.volunteerEvents ++ [⟨volunteerID, eventID⟩] })

/-- C9: the api.js registration handlers run no event-existence, capacity
or duplicate check: for every state they answer success, append exactly
one join row (raising both the event count and the pair count by one no
matter how large they already are), and read nothing from the Event
table. -/
theorem c9_api_handlers_insert_directly (st : RegState) (pid vid eid : Nat) :
    (apiPostParticipantEvents st pid eid).1 = true ∧
    participantCount (apiPostParticipantEvents st pid eid).2.participantEvents eid
      = participantCount st.participantEvents eid + 1 ∧
    participantPairCount
        (apiPostParticipantEvents st pid eid).2.participantEvents pid eid
      = participantPairCount st.participantEvents pid eid + 1 ∧
    (apiPostParticipantEvents st pid eid).2.events = st.events ∧
    (apiPostVolunteerEvents st vid eid).1 = true ∧
    volunteerCount (apiPostVolunteerEvents st vid eid).2.volunteerEvents eid
      = volunteerCount st.volunteerEvents eid + 1 ∧
    volunteerPairCount
        (apiPostVolunteerEvents st vid eid).2.volunteerEvents vid eid
      = volunteerPairCount st.volunteerEvents vid eid + 1 ∧
    (apiPostVolunteerEvents st vid eid).2.events = st.events := by
  refine ⟨rfl, ?_, ?_, rfl, rfl, ?_, ?_, rfl⟩
  · simp [apiPostParticipantEvents, participantCount, length_filter_append_singleton]
  · simp [apiPostParticipantEvents, participantPairCount, length_filter_append_singleton]
  · simp [apiPostVolunteerEvents, volunteerCount, length_filter_append_singleton]
  · simp [apiPostVolunteerEvents, volunteerPairCount, length_filter_append_singleton]

/-- Row of the User table as written by the account-creation handlers of
server1.js (fullName, role, image_url plus the auto-increment key). -/
structure AccUser where
  userID : Nat
  fullName : String
  role : String
  image_url : String
deriving DecidableEq

/-- Row of the Staff table: userID, email (UNIQUE per migrate-schema.js)
and the stored password hash. -/
structure StaffRow where
  userID : Nat
  email : String
  password : String
deriving DecidableEq

/-- Row of the Volunteers table: userID, email (UNIQUE per
migrate-schema.js) and the stored password hash. -/
structure VolunteerRow where
  userID : Nat
  email : String
  password : String
deriving DecidableEq

/-- Row of the Participant table as used by the server1.js creation
handler: userID, phoneNumber, birthdate. -/
structure ParticipantRow where
  userID : Nat
  phoneNumber : String
  birthdate : String
deriving DecidableEq

/-- The tables consulted by the account-creation handlers, plus the
auto-increment counter of the User table. -/
structure AccState where
  users : List AccUser
  staffRows : List StaffRow
  volunteerRows : List VolunteerRow
  participantRows : List ParticipantRow
  nextUserID : Nat
deriving DecidableEq

/-- Outcome of an account-creation handler. Constructor to HTTP
response: created is 201 with the new userID; badRequest is 400 for a
missing required field; forbidden is 403 (staff creation by a
non-staff caller); conflict is the 400 duplicate-unique-field rejection
(Email already registered / This phone number is already registered),
the Conflict of the error taxonomy; storageFailure is the 500 with the
database error message. -/
inductive CreateResult where
  | created (userID : Nat)
  | badRequest
  | forbidden
  | conflict
  | storageFailure
deriving DecidableEq

/-- Handler of POST /staff in server1.js: reject non-staff callers with
403; 400 when fullName, email or password is missing; 400 Email already
registered when a Staff row with the email exists; otherwise hash the
password with bcrypt, insert the User row, insert the Staff row, answer
201. The bcrypt hash is passed in as the parameter hash. -/
def postStaff (hash : String → String) (st : AccState)
    (callerRole fullName email password image_url : String) :
    CreateResult × AccState :=
  if callerRole ≠ "staff" then (CreateResult.forbidden, st)
  else if fullName = "" ∨ email = "" ∨ password = "" then (CreateResult.badRequest, st)
  else if st.staffRows.any (fun s => s.email == email) then (CreateResult.conflict, st)
  else
    (CreateResult.created st.nextUserID,
      { st with
          users := st.users ++ [⟨st.nextUserID, fullName, "staff", image_url⟩],
          staffRows := st.staffRows ++ [⟨st.nextUserID, email, hash password⟩],
          nextUserID := st.nextUserID + 1 })

/-- Handler of POST /volunteers in server1.js: 400 when a required field
is missing; otherwise hash the password, insert the User row, then insert
the Volunteers row. There is no duplicate-email check: when a Volunteers
row with the email exists the second INSERT violates the UNIQUE email
constraint (migrate-schema.js) and the handler answers 500 with the
database error, the User row having already been inserted without
rollback. -/
def postVolunteers (hash : String → String) (st : AccState)
    (fullName email password image_url : String) :
    CreateResult × AccState :=
  if fullName = "" ∨ email = "" ∨ password = "" then (CreateResult.badRequest, st)
  else
    let st1 := { st with
      users := st.users ++ [⟨st.nextUserID, fullName, "volunteer", image_url⟩],
      nextUserID := st.nextUserID + 1 }
    if st.volunteerRows.any (fun v => v.email == email) then
      (CreateResult.storageFailure, st1)
    else
      (CreateResult.created st.nextUserID,
        { st1 with volunteerRows :=
            st.volunteerRows ++ [⟨st.nextUserID, email, hash password⟩] })

/-- Handler of POST /participants in server1.js: 400 when a required
field is missing; 400 This phone number is already registered when a
Participant row with the phone exists; otherwise insert the User row and
the Participant row and answer 201. No password is involved. -/
def postParticipants (st : AccState)
    (fullName phoneNumber birthdate image_url : String) :
    CreateResult × AccState :=
  if fullName = "" ∨ phoneNumber = "" ∨ birthdate = "" then (CreateResult.badRequest, st)
  else if st.participantRows.any (fun p => p.phoneNumber == phoneNumber) then
    (CreateResult.conflict, st)
  else
    (CreateResult.created st.nextUserID,
      { st with
          users := st.users ++ [⟨st.nextUserID, fullName, "participant", image_url⟩],
          participantRows := st.participantRows ++ [⟨st.nextUserID, phoneNumber, birthdate⟩],
          nextUserID := st.nextUserID + 1 })

/-- Stand-in bcrypt hash used only to instantiate the parametric
theorems on concrete inputs. -/
def demoHash (password : String) : String := String.append "hashed:" password

/-- Account state holding one volunteer whose email is a@b.c. -/
def dupVolState : AccState :=
  { users := [⟨1, "Alice", "volunteer", ""⟩],
    staffRows := [],
    volunteerRows := [⟨1, "a@b.c", "hashed:pw1"⟩],
    participantRows := [],
    nextUserID := 2 }

/-- C5 counterexample: creating a volunteer with an email already in use
does not answer Conflict: it answers the 500 storage failure of the
UNIQUE constraint, and the User row has already been inserted, so a new
(orphan) User row is created. -/
theorem c5_counterexample :
    (postVolunteers demoHash dupVolState "Bob" "a@b.c" "pw2" "").1
      = CreateResult.storageFailure ∧
    (postVolunteers demoHash dupVolState "Bob" "a@b.c" "pw2" "").1
      ≠ CreateResult.conflict ∧
    (postVolunteers demoHash dupVolState "Bob" "a@b.c" "pw2" "").2.users.length
      = dupVolState.users.length + 1 := by
  decide

/-- C5 amended: staff creation hashes the password and answers Conflict
on a duplicate staff email, inserting no row; volunteer creation hashes
the password but runs no duplicate-email check, so a duplicate volunteer
email ends in a storage failure with the User row already inserted;
participant creation answers Conflict on a duplicate phone number,
inserting nothing. -/
theorem c5_account_creation (hash : String → String) (st : AccState)
    (fullName email password phone birthdate image_url : String)
    (hfn : fullName ≠ "") (hem : email ≠ "") (hpw : password ≠ "") :
    (st.staffRows.any (fun s => s.email == email) = true →
       postStaff hash st "staff" fullName email password image_url
         = (CreateResult.conflict, st)) ∧
    (st.staffRows.any (fun s => s.email == email) = false →
       postStaff hash st "staff" fullName email password image_url
         = (CreateResult.created st.nextUserID,
            { st with
                users := st.users ++ [⟨st.nextUserID, fullName, "staff", image_url⟩],
                staffRows := st.staffRows ++ [⟨st.nextUserID, email, hash password⟩],
                nextUserID := st.nextUserID + 1 })) ∧
    (st.volunteerRows.any (fun v => v.email == email) = true →
       postVolunteers hash st fullName email password image_url
         = (CreateResult.storageFailure,
            { st with
                users := st.users ++ [⟨st.nextUserID, fullName, "volunteer", image_url⟩],
                nextUserID := st.nextUserID + 1 })) ∧
    (st.volunteerRows.any (fun v => v.email == email) = false →
       postVolunteers hash st fullName email password image_url
         = (CreateResult.created st.nextUserID,
            { st with
                users := st.users ++ [⟨st.nextUserID, fullName, "volunteer", image_url⟩],
                volunteerRows := st.volunteerRows ++ [⟨st.nextUserID, email, hash password⟩],
                nextUserID := st.nextUserID + 1 })) ∧
    (phone ≠ "" → birthdate ≠ "" →
       st.participantRows.any (fun p => p.phoneNumber == phone) = true →
       postParticipants st fullName phone birthdate image_url
         = (CreateResult.conflict, st)) := by
  refine ⟨?_, ?_, ?_, ?_, ?_⟩
  · intro hdup
    simp [postStaff, hfn, hem, hpw, hdup]
  · intro hdup
    simp [postStaff, hfn, hem, hpw, hdup]
  · intro hdup
    simp [postVolunteers, hfn, hem, hpw, hdup]
  · intro hdup
    simp [postVolunteers, hfn, hem, hpw, hdup]
  · intro hph hbd hdup
    simp [postParticipants, hfn, hph, hbd, hdup]

/-- Account state with no rows. -/
def emptyAcc : AccState :=
  { users := [], staffRows := [], volunteerRows := [], participantRows := [],
    nextUserID := 1 }

/-- C5 witness: on the empty account state, staff creation with a fresh
email stores the hash of the supplied password, and on dupVolState a
duplicate volunteer email ends in a storage failure with the orphan User
row inserted. -/
theorem c5_account_creation_witness :
    postStaff demoHash emptyAcc "staff" "Carol" "c@d.e" "pw" ""
      = (CreateResult.created 1,
         { emptyAcc with
             users := [⟨1, "Carol", "staff", ""⟩],
             staffRows := [⟨1, "c@d.e", demoHash "pw"⟩],
             nextUserID := 2 }) ∧
    postVolunteers demoHash dupVolState "Bob" "a@b.c" "pw2" ""
      = (CreateResult.storageFailure,
         { dupVolState with
             users := dupVolState.users ++ [⟨2, "Bob", "volunteer", ""⟩],
             nextUserID := 3 }) :=
  ⟨by
    have h := (c5_account_creation demoHash emptyAcc "Carol" "c@d.e" "pw"
      "p" "b" "" (by decide) (by decide) (by decide)).2.1 (by decide)
    simpa using h,
   by
    have h := (c5_account_creation demoHash dupVolState "Bob" "a@b.c" "pw2"
      "p" "b" "" (by decide) (by decide) (by decide)).2.2.1 (by decide)
    simpa using h⟩

/-- Row of the User table in the part_001 routes file, which keeps phone
and birthdate on User (check-or-create inserts fullName, phone,
birthdate, role, image_url). -/
structure AuthUser where
  userID : Nat
  fullName : String
  phone : String
  birthdate : String
  role : String
  image_url : String
deriving DecidableEq

/-- Value stored in the in-memory otpStore Map: the code, the resolved
user id, and the expiry instant in milliseconds. -/
structure OtpEntry where
  otp : String
  userId : Nat
  expiresAt : Nat
deriving DecidableEq

/-- State of the OTP login flow: the User table, the Participant table
(userID column only, as inserted by check-or-create), the process-local
otpStore Map keyed by phone number, and the auto-increment counter. -/
structure AuthState where
  users : List AuthUser
  participants : List Nat
  otpStore : List (String × OtpEntry)
  nextUserID : Nat
deriving DecidableEq

/-- Map.set on the otpStore: the new binding shadows any old one. -/
def otpSet (store : List (String × OtpEntry)) (key : String) (entry : OtpEntry) :
    List (String × OtpEntry) :=
  (key, entry) :: store.filter (fun kv => !(kv.1 == key))

/-- Map.get on the otpStore. -/
def otpGet (store : List (String × OtpEntry)) (key : String) : Option OtpEntry :=
  (store.find? (fun kv => kv.1 == key)).map (fun kv => kv.2)

/-- Map.delete on the otpStore. -/
def otpDelete (store : List (String × OtpEntry)) (key : String) :
    List (String × OtpEntry) :=
  store.filter (fun kv => !(kv.1 == key))

/-- Lookup of SELECT ... FROM User u LEFT JOIN Participant p ... WHERE
u.phone = ? AND u.birthdate = ?. -/
def findUserByPhoneBirthdate (users : List AuthUser) (phone birthdate : String) :
    Option AuthUser :=
  users.find? (fun u => u.phone == phone && u.birthdate == birthdate)

/-- Lookup of SELECT ... FROM User WHERE userID = ?. -/
def findUserById (users : List AuthUser) (userID : Nat) : Option AuthUser :=
  users.find? (fun u => u.userID == userID)

/-- Outcome of POST /participant/check-or-create: 400 for a missing
field, or 200 carrying isNewUser and the issued code. -/
inductive CheckOrCreateResult where
  | badRequest
  | ok (isNewUser : Bool) (otp : String)
deriving DecidableEq

/-- Payload of the JWT issued by POST /login-otp (userID, phone, role);
the signed token is modelled by its payload. -/
structure JwtPayload where
  userID : Nat
  phone : String
  role : String
deriving DecidableEq

/-- Outcome of POST /login-otp. Constructor to HTTP response: badRequest
is 400; unauthorized is 401 (OTP not found or expired / OTP expired /
Invalid OTP), which never carries a token; userNotFound is 404; success
is 200 with the signed token. -/
inductive LoginOtpResult where
  | badRequest
  | unauthorized
  | userNotFound
  | success (token : JwtPayload)
deriving DecidableEq

/-- Handler of POST /participant/check-or-create in part_001: 400 when a
field is missing; when no User row matches (phone, birthdate), insert a
User row with role participant and empty image_url plus a Participant
row; otherwise, when the submitted fullName differs from the stored one,
update only User.fullName for the matched row; in both cases store the
hardcoded code 123456 under the phone number with expiry now plus five
minutes, and answer 200. -/
def checkOrCreate (st : AuthState) (now : Nat)
    (phoneNumber fullName birthdate : String) :
    CheckOrCreateResult × AuthState :=
  if phoneNumber = "" ∨ fullName = "" ∨ birthdate = "" then
    (CheckOrCreateResult.badRequest, st)
  else
    match findUserByPhoneBirthdate st.users phoneNumber birthdate with
    | none =>
      let uid := st.nextUserID
      let st1 : AuthState := { st with
        users := st.users ++ [⟨uid, fullName, phoneNumber, birthdate, "participant", ""⟩],
        participants := st.participants ++ [uid],
        nextUserID := uid + 1 }
      (CheckOrCreateResult.ok true "123456",
        { st1 with otpStore :=
            (otpSet st1.otpStore phoneNumber ⟨"123456", uid, now + 5 * 60 * 1000⟩) })
    | some u =>
      let st1 :=
        if u.fullName ≠ fullName then
          { st with users := (st.users.map (fun v =>
              if v.userID == u.userID then { v with fullName := fullName } else v)) }
        else st
      (CheckOrCreateResult.ok false "123456",
        { st1 with otpStore :=
            (otpSet st1.otpStore phoneNumber ⟨"123456", u.userID, now + 5 * 60 * 1000⟩) })

/-- Handler of POST /login-otp in part_001: 400 when phone or otp is
missing; 401 when no entry is stored for the phone; 401 with the entry
deleted when the stored entry is past its expiry; 401 when the code does
not match; 404 when the stored userId matches no User row; otherwise
delete the entry and answer 200 with a token carrying userID, phone and
role from the User row. -/
def loginOtp (st : AuthState) (now : Nat) (phone otp : String) :
    LoginOtpResult × AuthState :=
  if phone = "" ∨ otp = "" then (LoginOtpResult.badRequest, st)
  else
    match otpGet st.otpStore phone with
    | none => (LoginOtpResult.unauthorized, st)
    | some stored =>
      if stored.expiresAt < now then
        (LoginOtpResult.unauthorized, { st with otpStore := otpDelete st.otpStore phone })
      else if stored.otp ≠ otp then (LoginOtpResult.unauthorized, st)
      else
        match findUserById st.users stored.userId with
        | none => (LoginOtpResult.userNotFound, st)
        | some user =>
          (LoginOtpResult.success ⟨user.userID, user.phone, user.role⟩,
            { st with otpStore := otpDelete st.otpStore phone })

/-- Setting a key makes it the binding the store answers for that key. -/
theorem otpGet_otpSet_self (store : List (String × OtpEntry)) (key : String)
    (entry : OtpEntry) : otpGet (otpSet store key entry) key = some entry := by
  simp [otpGet, otpSet, List.find?_cons]

/-- Deleting a key removes every binding the store would answer for it. -/
theorem otpGet_otpDelete_self (store : List (String × OtpEntry)) (key : String) :
    otpGet (otpDelete store key) key = none := by
  unfold otpGet otpDelete
  rw [List.find?_eq_none.mpr]
  · rfl
  · intro kv hkv
    have := (List.mem_filter.mp hkv).2
    simpa using this

/-- A find? over an appended list skips a prefix with no match. -/
theorem find?_append_of_none {α : Type} (l1 l2 : List α) (p : α → Bool)
    (h : l1.find? p = none) : (l1 ++ l2).find? p = l2.find? p := by
  rw [List.find?_append, h, Option.none_or]

/-- C6: starting from any state in which the phone 91234567 with
birthdate 1950-05-15 is not yet registered (and the auto-increment id is
fresh), running check-or-create with name Ah Kow and then login-otp with
the matching phone and the correct code 123456 within the expiry window
answers success with a token whose role claim is participant. -/
theorem c6_otp_roundtrip (st : AuthState) (now now2 : Nat)
    (hfresh : ∀ u ∈ st.users, u.userID ≠ st.nextUserID)
    (hnew : findUserByPhoneBirthdate st.users "91234567" "1950-05-15" = none)
    (htime : now2 ≤ now + 5 * 60 * 1000) :
    ∃ tok : JwtPayload,
      (loginOtp (checkOrCreate st now "91234567" "Ah Kow" "1950-05-15").2
          now2 "91234567" "123456").1 = LoginOtpResult.success tok ∧
      tok.role = "participant" := by
  have hco :
      (checkOrCreate st now "91234567" "Ah Kow" "1950-05-15").2
        = { users := st.users ++
              [⟨st.nextUserID, "Ah Kow", "91234567", "1950-05-15", "participant", ""⟩],
            participants := st.participants ++ [st.nextUserID],
            otpStore := otpSet st.otpStore "91234567"
              ⟨"123456", st.nextUserID, now + 5 * 60 * 1000⟩,
            nextUserID := st.nextUserID + 1 } := by
    simp [checkOrCreate, hnew]
  have hfind : findUserById
      (st.users ++
        [⟨st.nextUserID, "Ah Kow", "91234567", "1950-05-15", "participant", ""⟩])
      st.nextUserID
      = some ⟨st.nextUserID, "Ah Kow", "91234567", "1950-05-15", "participant", ""⟩ := by
    unfold findUserById
    rw [find?_append_of_none]
    · simp
    · rw [List.find?_eq_none]
      intro u hu
      simpa using hfresh u hu
  refine ⟨⟨st.nextUserID, "91234567", "participant"⟩, ?_, rfl⟩
  rw [hco]
  unfold loginOtp
  rw [if_neg (by simp)]
  dsimp only
  rw [otpGet_otpSet_self]
  dsimp only
  rw [if_neg (Nat.not_lt.mpr htime)]
  rw [if_neg (by simp)]
  rw [hfind]

/-- Auth state with no rows and no stored codes. -/
def emptyAuth : AuthState :=
  { users := [], participants := [], otpStore := [], nextUserID := 1 }

/-- C6 witness: the concrete round trip on the empty state at time zero
yields the participant token. -/
theorem c6_otp_roundtrip_witness :
    ∃ tok : JwtPayload,
      (loginOtp (checkOrCreate emptyAuth 0 "91234567" "Ah Kow" "1950-05-15").2
          0 "91234567" "123456").1 = LoginOtpResult.success tok ∧
      tok.role = "participant" :=
  c6_otp_roundtrip emptyAuth 0 0 (by simp [emptyAuth]) (by rfl) (by decide)

/-- C7: a code written by check-or-create is stored with expiry exactly
five minutes after issuance; a login attempt whose stored entry is past
its expiry answers 401 Unauthorized (deleting the entry) and issues no
token; and a successful login consumes the entry, so the store holds
nothing for the phone afterwards and every further attempt answers 401
Unauthorized with no token. -/
theorem c7_otp_expiry_single_use (st : AuthState) (now now2 : Nat)
    (phone otp fullName birthdate : String) :
    (∀ r st1, checkOrCreate st now phone fullName birthdate = (r, st1) →
        r ≠ CheckOrCreateResult.badRequest →
        ∃ e, otpGet st1.otpStore phone = some e ∧
          e.otp = "123456" ∧ e.expiresAt = now + 5 * 60 * 1000) ∧
    (phone ≠ "" → otp ≠ "" →
        ∀ e, otpGet st.otpStore phone = some e → e.expiresAt < now2 →
          loginOtp st now2 phone otp
            = (LoginOtpResult.unauthorized,
               { st with otpStore := otpDelete st.otpStore phone })) ∧
    (∀ tok st2, loginOtp st now phone otp = (LoginOtpResult.success tok, st2) →
        otpGet st2.otpStore phone = none ∧
        (∀ now3 otp3, otp3 ≠ "" →
          (loginOtp st2 now3 phone otp3).1 = LoginOtpResult.unauthorized)) := by
  refine ⟨?_, ?_, ?_⟩
  · intro r st1 hco hr
    unfold checkOrCreate at hco
    split_ifs at hco with hval
    · rw [Prod.mk.injEq] at hco
      exact absurd hco.1.symm hr
    · cases hfind : findUserByPhoneBirthdate st.users phone birthdate with
      | none =>
          rw [hfind] at hco
          dsimp only at hco
          rw [Prod.mk.injEq] at hco
          rw [← hco.2]
          exact ⟨_, otpGet_otpSet_self _ _ _, rfl, rfl⟩
      | some u =>
          rw [hfind] at hco
          dsimp only at hco
          rw [Prod.mk.injEq] at hco
          rw [← hco.2]
          exact ⟨_, otpGet_otpSet_self _ _ _, rfl, rfl⟩
  · intro hp ho e hget hexp
    unfold loginOtp
    rw [if_neg (by simp [hp, ho])]
    rw [hget]
    dsimp only
    rw [if_pos hexp]
  · intro tok st2 hpost
    unfold loginOtp at hpost
    split_ifs at hpost with hval
    · simp at hpost
    · cases hget : otpGet st.otpStore phone with
      | none =>
          rw [hget] at hpost
          simp at hpost
      | some stored =>
          rw [hget] at hpost
          dsimp only at hpost
          split_ifs at hpost with hexp hotp
          · simp at hpost
          · simp at hpost
          · cases hfind : findUserById st.users stored.userId with
            | none =>
                rw [hfind] at hpost
                simp at hpost
            | some user =>
                rw [hfind] at hpost
                dsimp only at hpost
                rw [Prod.mk.injEq] at hpost
                have hst2 : st2 = { st with otpStore := otpDelete st.otpStore phone } :=
                  hpost.2.symm
                subst hst2
                refine ⟨otpGet_otpDelete_self st.otpStore phone, ?_⟩
                intro now3 otp3 ho3
                have hp : ¬phone = "" := fun hpe => hval (Or.inl hpe)
                unfold loginOtp
                rw [if_neg (by simp [hp, ho3])]
                dsimp only
                have hnone :
                    otpGet ({ st with otpStore := otpDelete st.otpStore phone }
                      : AuthState).otpStore phone = none :=
                  otpGet_otpDelete_self _ _
                rw [hnone]

/-- State of the OTP store right after the sample check-or-create call
at time zero: it holds the code 123456 for 91234567 expiring at 300000. -/
def otpProbe : AuthState :=
  (checkOrCreate emptyAuth 0 "91234567" "Ah Kow" "1950-05-15").2

/-- C7 witness: at time 600000 the stored code from time zero is expired
and login answers Unauthorized; after a successful login at time 10 a
second attempt with the same, already-used code answers Unauthorized. -/
theorem c7_otp_expiry_single_use_witness :
    (loginOtp otpProbe 600000 "91234567" "123456").1
      = LoginOtpResult.unauthorized ∧
    (loginOtp (loginOtp otpProbe 10 "91234567" "123456").2
        20 "91234567" "123456").1 = LoginOtpResult.unauthorized := by
  constructor
  · have h := (c7_otp_expiry_single_use otpProbe 0 600000 "91234567" "123456"
      "Ah Kow" "1950-05-15").2.1 (by decide) (by decide)
      ⟨"123456", 1, 300000⟩ (by decide) (by decide)
    rw [h]
  · have h := (c7_otp_expiry_single_use otpProbe 10 0 "91234567" "123456"
      "Ah Kow" "1950-05-15").2.2 ⟨1, "91234567", "participant"⟩
      (loginOtp otpProbe 10 "91234567" "123456").2 (by decide)
    exact h.2 20 "123456" (by decide)

/-- C10: when check-or-create matches an existing user by (phone,
birthdate) and the submitted name differs from the stored one, the
handler rewrites only the fullName of the matched User row, keeping the
row count, the Participant table and the id counter unchanged; when the
names agree the database tables are untouched (only the process-local
otpStore changes). -/
theorem c10_check_or_create_frame (st : AuthState) (now : Nat)
    (phone fullName birthdate : String) (u : AuthUser)
    (hp : phone ≠ "") (hn : fullName ≠ "") (hb : birthdate ≠ "")
    (hfound : findUserByPhoneBirthdate st.users phone birthdate = some u) :
    (u.fullName ≠ fullName →
       (checkOrCreate st now phone fullName birthdate).2.users
         = (st.users.map (fun v =>
             if v.userID == u.userID then { v with fullName := fullName } else v)) ∧
       (checkOrCreate st now phone fullName birthdate).2.users.length
         = st.users.length ∧
       (checkOrCreate st now phone fullName birthdate).2.participants
         = st.participants ∧
       (checkOrCreate st now phone fullName birthdate).2.nextUserID
         = st.nextUserID) ∧
    (u.fullName = fullName →
       (checkOrCreate st now phone fullName birthdate).2.users = st.users ∧
       (checkOrCreate st now phone fullName birthdate).2.participants
         = st.participants ∧
       (checkOrCreate st now phone fullName birthdate).2.nextUserID
         = st.nextUserID) := by
  unfold checkOrCreate
  rw [if_neg (by simp [hp, hn, hb])]
  rw [hfound]
  dsimp only
  constructor
  · intro hne
    rw [if_pos hne]
    exact ⟨rfl, by simp, rfl, rfl⟩
  · intro heq
    rw [if_neg (by simp [heq])]
    exact ⟨rfl, rfl, rfl⟩

/-- Auth state holding the registered participant Ah Kow under id 3. -/
def namedState : AuthState :=
  { users := [⟨3, "Ah Kow", "91234567", "1950-05-15", "participant", ""⟩],
    participants := [3], otpStore := [], nextUserID := 4 }

/-- C10 witness: resubmitting with the changed name Ah Tan rewrites only
the stored fullName; resubmitting the unchanged name leaves the tables
untouched. -/
theorem c10_check_or_create_frame_witness :
    (checkOrCreate namedState 0 "91234567" "Ah Tan" "1950-05-15").2.users
      = [⟨3, "Ah Tan", "91234567", "1950-05-15", "participant", ""⟩] ∧
    (checkOrCreate namedState 0 "91234567" "Ah Tan" "1950-05-15").2.participants
      = namedState.participants ∧
    (checkOrCreate namedState 0 "91234567" "Ah Kow" "1950-05-15").2.users
      = namedState.users := by
  have hchanged := (c10_check_or_create_frame namedState 0 "91234567" "Ah Tan"
    "1950-05-15" ⟨3, "Ah Kow", "91234567", "1950-05-15", "participant", ""⟩
    (by decide) (by decide) (by decide) (by decide)).1 (by decide)
  have hsame := (c10_check_or_create_frame namedState 0 "91234567" "Ah Kow"
    "1950-05-15" ⟨3, "Ah Kow", "91234567", "1950-05-15", "participant", ""⟩
    (by decide) (by decide) (by decide) (by decide)).2 (by decide)
  refine ⟨?_, hchanged.2.2.1, hsame.1⟩
  rw [hchanged.1]
  decide

/-- Row of the User table as read by POST /login in part_001 (userID,
fullName, NRIC, role, image_url). -/
structure LoginUser where
  userID : Nat
  fullName : String
  NRIC : String
  role : String
  image_url : String
deriving DecidableEq

/-- Row of the Staff table as read by POST /login: userID and the stored
password hash. -/
structure StaffAuthRow where
  userID : Nat
  password : String
deriving DecidableEq

/-- The two tables consulted by the staff credential login. -/
structure LoginState where
  users : List LoginUser
  staff : List StaffAuthRow
deriving DecidableEq

/-- Payload of the JWT issued by POST /login (userID, NRIC, role). -/
structure StaffJwtPayload where
  userID : Nat
  NRIC : String
  role : String
deriving DecidableEq

/-- Outcome of POST /login. Constructor to HTTP response: badRequest is
400 for a missing field; unauthorized is 401 Invalid NRIC or password,
which never carries a token; success is 200 with the signed token. -/
inductive StaffLoginResult where
  | badRequest
  | unauthorized
  | success (token : StaffJwtPayload)
deriving DecidableEq

/-- SELECT u..., s.password FROM User u JOIN Staff s ON u.userID =
s.userID WHERE u.NRIC = ?, taking the first joined row. -/
def staffLoginLookup (st : LoginState) (nric : String) :
    Option (LoginUser × String) :=
  (st.users.filterMap (fun u =>
    if u.NRIC == nric then
      (st.staff.find? (fun s => s.userID == u.userID)).map (fun s => (u, s.password))
    else none)).head?

/-- Handler of POST /login in part_001: 400 when NRIC or password is
missing; 401 when the NRIC matches no joined User and Staff row; 401
when bcrypt.compare of the supplied password against the stored hash
fails; otherwise 200 with a token carrying userID, NRIC and role. The
bcrypt comparison is passed in as the parameter compare. -/
def postLogin (compare : String → String → Bool) (st : LoginState)
    (nric password : String) : StaffLoginResult :=
  if nric = "" ∨ password = "" then StaffLoginResult.badRequest
  else
    match staffLoginLookup st nric with
    | none => StaffLoginResult.unauthorized
    | some (u, stored) =>
      if compare password stored then
        StaffLoginResult.success ⟨u.userID, u.NRIC, u.role⟩
      else StaffLoginResult.unauthorized

/-- C8: a staff login whose NRIC matches no staff row, or whose supplied
password fails the bcrypt comparison against the stored hash, answers
401 Unauthorized, a result that carries no token. -/
theorem c8_staff_login_wrong_password (compare : String → String → Bool)
    (st : LoginState) (nric password : String)
    (hn : nric ≠ "") (hp : password ≠ "") :
    (staffLoginLookup st nric = none →
       postLogin compare st nric password = StaffLoginResult.unauthorized) ∧
    (∀ u stored, staffLoginLookup st nric = some (u, stored) →
       compare password stored = false →
       postLogin compare st nric password = StaffLoginResult.unauthorized) := by
  constructor
  · intro h
    simp [postLogin, hn, hp, h]
  · intro u stored h hcmp
    simp [postLogin, hn, hp, h, hcmp]

/-- Login state holding one staff user Dana with a stored hash. -/
def staffState : LoginState :=
  { users := [⟨1, "Dana", "S1234567A", "staff", ""⟩],
    staff := [⟨1, "hashed:secret"⟩] }

/-- Stand-in bcrypt comparison matching the stand-in hash, used only to
instantiate the parametric login theorem. -/
def demoCompare (password stored : String) : Bool :=
  stored == String.append "hashed:" password

/-- C8 witness: a wrong password for the known staff NRIC and a login
with an unknown NRIC both answer Unauthorized. -/
theorem c8_staff_login_wrong_password_witness :
    postLogin demoCompare staffState "S1234567A" "wrong"
      = StaffLoginResult.unauthorized ∧
    postLogin demoCompare staffState "T0000000Z" "secret"
      = StaffLoginResult.unauthorized :=
  ⟨(c8_staff_login_wrong_password demoCompare staffState "S1234567A" "wrong"
      (by decide) (by decide)).2
      ⟨1, "Dana", "S1234567A", "staff", ""⟩ "hashed:secret" (by decide) (by decide),
   (c8_staff_login_wrong_password demoCompare staffState "T0000000Z" "secret"
      (by decide) (by decide)).1 (by decide)⟩

end Lumen
